import Mathlib

/-!
Verification development for `garak/generators/ggml.py` (`GgmlGenerator`):
a shallow embedding of the adapter's constructor-time validation
(`GgmlGenerator.__init__`), command-vector construction
(`GgmlGenerator.command_params` plus the first half of `_call_model`), and
the invocation / failure-classification logic (the `try`/`except` body of
`_call_model`), together with theorems settling the specified properties.

Python strings are modelled as `List Char`; byte strings as `List Nat`
(each entry one byte).  The external world (`os.path.isfile`/`open` and
`subprocess.run`) is abstracted as explicit inputs: a `FileSystem` map from
paths to regular-file contents, and a `RunOutcome` describing how the
subprocess invocation went.
-/

/-- Value of a Python expression placed into the command list before the
`str()` pass.  `self.name` and the path/flag literals are strings,
`max_tokens`, `top_k` and `seed` are ints, and the sampling parameters are
floats.  Python renders a float with its shortest round-trip `repr`; we do
not model binary floating point, so a float value carries its rendered text
symbolically. -/
inductive PyVal where
  | vstr (s : List Char)
  | vint (n : Int)
  | vfloat (repr : List Char)
  deriving DecidableEq, Repr

/-- Model of Python `str()` applied to a command-list element. -/
def PyVal.render : PyVal → List Char
  | .vstr s => s
  | .vint n => (toString n).data
  | .vfloat r => r

/-- Whitespace characters removed by Python `str.lstrip()` (the ASCII
whitespace class; the claims involve no exotic Unicode space). -/
def isPySpace (c : Char) : Bool :=
  c = ' ' || c = '\t' || c = '\n' || c = '\r' || c = Char.ofNat 0x0B || c = Char.ofNat 0x0C

/-- Model of Python `str.lstrip()` with no argument. -/
def lstrip (s : List Char) : List Char :=
  s.dropWhile isPySpace

/-- Model of line 100 of `ggml.py`:
`re.sub("^" + re.escape(prompt.lstrip()), "", output.lstrip())`.
`re.escape` makes the pattern a literal, and the `^` anchor (no MULTILINE)
lets it match only at position 0, so the substitution removes exactly one
leading occurrence of the left-stripped prompt from the left-stripped
output when present, and otherwise leaves the left-stripped output
unchanged. -/
def stripEcho (prompt output : List Char) : List Char :=
  let o := lstrip output
  let p := lstrip prompt
  if p.isPrefixOf o then o.drop p.length else o

/-- Strict UTF-8 decoder, modelling Python `bytes.decode("utf-8")`:
rejects lone or misplaced continuation bytes, overlong encodings,
surrogate code points and code points above U+10FFFF, and truncated
multi-byte sequences.  Returns `none` exactly when Python would raise
`UnicodeDecodeError`. -/
def utf8DecodeList : List Nat → Option (List Char)
  | [] => some []
  | b :: rest =>
    if b ≤ 0x7F then
      (utf8DecodeList rest).map (fun cs => Char.ofNat b :: cs)
    else if b < 0xC2 then
      none
    else if b ≤ 0xDF then
      match rest with
      | b1 :: rest2 =>
        if 0x80 ≤ b1 && b1 ≤ 0xBF then
          (utf8DecodeList rest2).map (fun cs =>
            Char.ofNat ((b - 0xC0) * 0x40 + (b1 - 0x80)) :: cs)
        else none
      | [] => none
    else if b ≤ 0xEF then
      match rest with
      | b1 :: b2 :: rest3 =>
        if (0x80 ≤ b1 && b1 ≤ 0xBF) && (0x80 ≤ b2 && b2 ≤ 0xBF)
            && (b ≠ 0xE0 || 0xA0 ≤ b1) && (b ≠ 0xED || b1 ≤ 0x9F) then
          (utf8DecodeList rest3).map (fun cs =>
            Char.ofNat ((b - 0xE0) * 0x1000 + (b1 - 0x80) * 0x40 + (b2 - 0x80)) :: cs)
        else none
      | _ => none
    else if b ≤ 0xF4 then
      match rest with
      | b1 :: b2 :: b3 :: rest4 =>
        if (0x80 ≤ b1 && b1 ≤ 0xBF) && (0x80 ≤ b2 && b2 ≤ 0xBF) && (0x80 ≤ b3 && b3 ≤ 0xBF)
            && (b ≠ 0xF0 || 0x90 ≤ b1) && (b ≠ 0xF4 || b1 ≤ 0x8F) then
          (utf8DecodeList rest4).map (fun cs =>
            Char.ofNat ((b - 0xF0) * 0x40000 + (b1 - 0x80) * 0x1000
              + (b2 - 0x80) * 0x40 + (b3 - 0x80)) :: cs)
        else none
      | _ => none
    else none

example : utf8DecodeList [0x48, 0x65, 0x6C, 0x6C, 0x6F] = some "Hello".data := by decide

example : utf8DecodeList [0xFF] = none := by decide

example : stripEcho "Hello".data "Hello world".data = " world".data := by decide

/-- The 4-byte GGUF signature, `GGUF_MAGIC = bytes([0x47, 0x47, 0x55, 0x46])`. -/
def GGUF_MAGIC : List Nat := [0x47, 0x47, 0x55, 0x46]

/-- State of a constructed `GgmlGenerator` instance: the attributes read by
`command_params` and `_call_model`.  Each attribute that the
`command_params` dict exposes is an `Option PyVal`, `none` standing for
Python `None` (the loop in `_call_model` tests every value for `None`). -/
structure GgmlState where
  path_to_ggml_main : List Char
  name : Option PyVal
  max_tokens : Option PyVal
  repeat_penalty : Option PyVal
  presence_penalty : Option PyVal
  frequency_penalty : Option PyVal
  top_k : Option PyVal
  top_p : Option PyVal
  temperature : Option PyVal
  seed : Option PyVal
  exception_on_failure : Bool
  first_call : Bool
  deriving DecidableEq, Repr

/-- Model of `GgmlGenerator.command_params(self)`: a Python dict literal,
which preserves this insertion order when iterated. -/
def command_params (s : GgmlState) : List (List Char × Option PyVal) :=
  [ ("-m".data, s.name),
    ("-n".data, s.max_tokens),
    ("--repeat-penalty".data, s.repeat_penalty),
    ("--presence-penalty".data, s.presence_penalty),
    ("--frequency-penalty".data, s.frequency_penalty),
    ("--top-k".data, s.top_k),
    ("--top-p".data, s.top_p),
    ("--temp".data, s.temperature),
    ("-s".data, s.seed) ]

/-- Model of the command construction in `_call_model` (lines 79-90):
start from `[self.path_to_ggml_main, "-p", prompt]`, append `key` then
`value` for every `command_params()` entry whose value is not `None`, and
finally map `str` over every element. -/
def buildCommand (s : GgmlState) (prompt : List Char) : List (List Char) :=
  let command : List PyVal := [.vstr s.path_to_ggml_main, .vstr "-p".data, .vstr prompt]
  let command := (command_params s).foldl
    (fun acc kv =>
      match kv.2 with
      | some v => acc ++ [PyVal.vstr kv.1, v]
      | none => acc) command
  command.map PyVal.render

/-- The world of regular files: `regularFile p = some bytes` models
`os.path.isfile(p)` being true with `open(p, "rb")` yielding `bytes`;
`none` models `os.path.isfile(p)` being false. -/
structure FileSystem where
  regularFile : List Char → Option (List Nat)

/-- Construction-time failures of `GgmlGenerator.__init__`, under the
taxonomy the adapter's contract assigns them: the `RuntimeError` for a
missing `GGML_MAIN_PATH` is the configuration error, the two
`FileNotFoundError`s are the not-found errors, and the `RuntimeError` for
a magic-number mismatch is the format error.  Each carries the Python
message. -/
inductive InitError where
  | configurationError (msg : List Char)
  | notFoundError (msg : List Char)
  | formatError (msg : List Char)
  deriving DecidableEq, Repr

/-- Model of `model_file.read(len(GGUF_MAGIC))` on a file whose contents
are `contents`: at most the first 4 bytes (fewer when the file is
shorter). -/
def read_magic (contents : List Nat) : List Nat :=
  contents.take GGUF_MAGIC.length

/-- Model of `GgmlGenerator.__init__(self, name, generations)` (lines
57-76).  Inputs: the filesystem, `os.getenv("GGML_MAIN_PATH")`,
`_config.run.seed`, the `name` argument, and the `max_tokens` value the
`Generator` base class gives the instance.  Steps, in source order: fail
if the environment variable is unset; fail if it does not name a regular
file; resolve the seed (`_config.run.seed if ... is not None else 0`);
fail if `name` is not a regular file; read the first 4 bytes and fail if
they differ from `GGUF_MAGIC`; otherwise produce the instance state with
the class-level sampling defaults (1.1, 0.0, 0.0, 40, 0.95, 0.8),
`exception_on_failure = True` and `first_call = True`. -/
def ggmlInit (fs : FileSystem) (envGgmlMainPath : Option (List Char))
    (runSeed : Option Int) (name : List Char) (maxTokens : Option PyVal) :
    Except InitError GgmlState :=
  match envGgmlMainPath with
  | none =>
    .error (.configurationError "Executable not provided by environment GGML_MAIN_PATH".data)
  | some exePath =>
    match fs.regularFile exePath with
    | none => .error (.notFoundError ("Path provided is not a file: ".data ++ exePath))
    | some _ =>
      let seed : Int := runSeed.getD 0
      match fs.regularFile name with
      | none => .error (.notFoundError ("File not found, unable to load model: ".data ++ name))
      | some contents =>
        let magic_num := read_magic contents
        if magic_num ≠ GGUF_MAGIC then
          .error (.formatError (name ++ " is not in GGUF format".data))
        else
          .ok { path_to_ggml_main := exePath,
                name := some (.vstr name),
                max_tokens := maxTokens,
                repeat_penalty := some (.vfloat "1.1".data),
                presence_penalty := some (.vfloat "0.0".data),
                frequency_penalty := some (.vfloat "0.0".data),
                top_k := some (.vint 40),
                top_p := some (.vfloat "0.95".data),
                temperature := some (.vfloat "0.8".data),
                seed := some (.vint seed),
                exception_on_failure := true,
                first_call := true }

/-- How the `subprocess.run(...)` call went: the process ran to completion
with an exit code and captured stdout/stderr byte streams, or it could not
be run at all (e.g. `exec` failed), raising some other exception whose
text is `errMsg`. -/
inductive RunOutcome where
  | completed (returncode : Int) (stdout stderr : List Nat)
  | startFailure (errMsg : List Char)
  deriving DecidableEq, Repr

/-- What `_call_model` hands back to its caller: a returned value (`some
text` or Python `None`), a propagated `subprocess.CalledProcessError`, or
a propagated `UnicodeDecodeError` (raised while decoding stderr inside the
`except` handler, where no further handler catches it). -/
inductive CallResult where
  | output (text : Option (List Char))
  | calledProcessError (returncode : Int) (stderr : List Nat)
  | unicodeDecodeError
  deriving DecidableEq, Repr

/-- Result of one `_call_model` invocation: what it returns or raises, the
instance state afterwards, and the messages passed to `logging.error`
(the `print` calls to stdout are a separate side channel and are not
modelled). -/
structure CallOut where
  result : CallResult
  state : GgmlState
  logs : List (List Char)
  deriving DecidableEq, Repr

/-- Message `logging.error(err)` records when a `UnicodeDecodeError` from
`result.stdout.decode("utf-8")` is caught by the generic
`except Exception` handler. -/
def unicodeErrorLog : List Char := "UnicodeDecodeError".data

/-- Model of the `try`/`except` body of `_call_model` (lines 92-113),
given the outcome of the `subprocess.run` call on the built command.

With `check=self.exception_on_failure`, `subprocess.run` raises
`CalledProcessError` exactly when that flag is true and the exit code is
non-zero.  In that case the handler decodes stderr (propagating a
`UnicodeDecodeError` if stderr is not UTF-8; otherwise the decoded text is
printed and passed to `logging.error`), then re-raises the
`CalledProcessError` when `self.first_call` is true and returns `None`
otherwise — leaving `first_call` untouched on every one of these paths.

Otherwise `subprocess.run` returned a `CompletedProcess`: stdout is
decoded (a `UnicodeDecodeError` here is caught by `except Exception`,
logged, and turned into a returned `None` with `first_call` untouched),
the prompt echo is stripped, `self.first_call` is set to `False`, and the
text is returned.

A failure to start the process lands in `except Exception`: the error is
logged and `None` is returned, with `first_call` untouched. -/
def callModel (s : GgmlState) (prompt : List Char) (oc : RunOutcome) : CallOut :=
  match oc with
  | .startFailure e =>
    { result := .output none, state := s, logs := [e] }
  | .completed code out err =>
    if s.exception_on_failure ∧ code ≠ 0 then
      match utf8DecodeList err with
      | none => { result := .unicodeDecodeError, state := s, logs := [] }
      | some errText =>
        if s.first_call then
          { result := .calledProcessError code err, state := s, logs := [errText] }
        else
          { result := .output none, state := s, logs := [errText] }
    else
      match utf8DecodeList out with
      | none => { result := .output none, state := s, logs := [unicodeErrorLog] }
      | some text =>
        { result := .output (some (stripEcho prompt text)),
          state := { s with first_call := false },
          logs := [] }

/-! ### Helper definitions for the theorems -/

/-- Elements a single `command_params` entry contributes to the command
list before the `str()` pass: the flag then the value when the value is
not `None`, nothing otherwise. -/
def paramTokens (kv : List Char × Option PyVal) : List PyVal :=
  match kv.2 with
  | some v => [.vstr kv.1, v]
  | none => []

/-- Rendered tokens one parameter contributes to the final argument
vector: its flag then its value rendered as text when set, nothing when
unset. -/
def flagArg (flag : List Char) (v : Option PyVal) : List (List Char) :=
  match v with
  | some x => [flag, x.render]
  | none => []

/-- A concrete freshly-constructed instance state, used by witnesses:
all class-level defaults, `max_tokens = 150`, seed 0, first call still
pending. -/
def sampleState : GgmlState :=
  { path_to_ggml_main := "/usr/bin/main".data,
    name := some (.vstr "model.gguf".data),
    max_tokens := some (.vint 150),
    repeat_penalty := some (.vfloat "1.1".data),
    presence_penalty := some (.vfloat "0.0".data),
    frequency_penalty := some (.vfloat "0.0".data),
    top_k := some (.vint 40),
    top_p := some (.vfloat "0.95".data),
    temperature := some (.vfloat "0.8".data),
    seed := some (.vint 0),
    exception_on_failure := true,
    first_call := true }

/-- `sampleState` after a completed first call (`first_call` already
false). -/
def sampleStateLater : GgmlState :=
  { sampleState with first_call := false }

/-- `sampleState` with `exception_on_failure` turned off. -/
def sampleStateNoRaise : GgmlState :=
  { sampleState with exception_on_failure := false }

/-- A concrete filesystem for witnesses: an executable, a well-formed
model file, a model file with a wrong signature, and a 2-byte model
file. -/
def sampleFS : FileSystem :=
  { regularFile := fun p =>
      if p = "/usr/bin/main".data then some [0x7F, 0x45, 0x4C, 0x46]
      else if p = "model.gguf".data then some [0x47, 0x47, 0x55, 0x46, 0x00, 0x01]
      else if p = "bad.bin".data then some [0x01, 0x02, 0x03, 0x04, 0x05]
      else if p = "short.bin".data then some [0x47, 0x47]
      else none }

/-- The state `ggmlInit` produces from `sampleFS` with model
`model.gguf`, `max_tokens` unset and resolved seed `seedVal`. -/
def sampleOkState (seedVal : Int) : GgmlState :=
  { path_to_ggml_main := "/usr/bin/main".data,
    name := some (.vstr "model.gguf".data),
    max_tokens := none,
    repeat_penalty := some (.vfloat "1.1".data),
    presence_penalty := some (.vfloat "0.0".data),
    frequency_penalty := some (.vfloat "0.0".data),
    top_k := some (.vint 40),
    top_p := some (.vfloat "0.95".data),
    temperature := some (.vfloat "0.8".data),
    seed := some (.vint seedVal),
    exception_on_failure := true,
    first_call := true }

/-! ### Helper lemmas -/

lemma foldl_paramTokens (ps : List (List Char × Option PyVal)) (acc : List PyVal) :
    ps.foldl
      (fun acc kv =>
        match kv.2 with
        | some v => acc ++ [PyVal.vstr kv.1, v]
        | none => acc) acc
      = acc ++ (ps.map paramTokens).flatten := by
  induction ps generalizing acc with
  | nil => simp
  | cons kv ps ih =>
    simp only [List.foldl_cons, List.map_cons, List.flatten_cons, ih]
    cases h : kv.2 <;> simp [paramTokens, h]

lemma map_render_paramTokens (k : List Char) (v : Option PyVal) :
    (paramTokens (k, v)).map PyVal.render = flagArg k v := by
  cases v <;> simp [paramTokens, flagArg, PyVal.render]

/-- C4: for every config and prompt, the built argument vector is the
executable path, then `-p` followed by the raw prompt as one discrete
argument, then for each parameter whose value is not `None` its flag
token followed by its value rendered as text, in the fixed order `-m`,
`-n`, `--repeat-penalty`, `--presence-penalty`, `--frequency-penalty`,
`--top-k`, `--top-p`, `--temp`, `-s`; an unset parameter contributes
neither its flag nor its value, and no other element changes. -/
theorem C4_command_vector (s : GgmlState) (prompt : List Char) :
    buildCommand s prompt =
      [s.path_to_ggml_main, "-p".data, prompt]
        ++ flagArg "-m".data s.name
        ++ flagArg "-n".data s.max_tokens
        ++ flagArg "--repeat-penalty".data s.repeat_penalty
        ++ flagArg "--presence-penalty".data s.presence_penalty
        ++ flagArg "--frequency-penalty".data s.frequency_penalty
        ++ flagArg "--top-k".data s.top_k
        ++ flagArg "--top-p".data s.top_p
        ++ flagArg "--temp".data s.temperature
        ++ flagArg "-s".data s.seed := by
  simp only [buildCommand]
  rw [foldl_paramTokens]
  simp only [command_params, List.map_cons, List.map_nil, List.flatten_cons, List.flatten_nil,
    List.map_append, List.append_nil, PyVal.render, map_render_paramTokens, List.append_assoc,
    List.cons_append, List.nil_append]

/-- C1, counterexample to the claim as stated.  The claim asserts that on
every invocation whose process completes with a non-zero exit code the
`first_call` flag is set to false before the call returns or propagates,
in the raising branch too.  Concretely: a fresh instance
(`first_call = true`, `exception_on_failure = true`), the process exits
with code 1, so `subprocess.run` raises and the handler re-raises — yet
the flag is still true afterwards, because `self.first_call = False`
appears only in the `try` body, after a successful `subprocess.run` and
stdout decode, and the `except` handlers never assign it. -/
theorem C1_counterexample :
    sampleState.first_call = true
      ∧ sampleState.exception_on_failure = true
      ∧ (callModel sampleState "hi".data (.completed 1 [] [])).result
          = .calledProcessError 1 []
      ∧ ¬ (callModel sampleState "hi".data (.completed 1 [] [])).state.first_call = false := by
  decide

/-- C1 (amended): on an invocation whose process completes with a
non-zero exit code (with `exception_on_failure` set, so the failure
policy applies), `first_call` is left unchanged — in the raising branch
and in the recovering branch alike; the flag is set to false only on the
non-raising path that decodes stdout.  The monotonicity half of the
original claim does hold: once false, the flag never becomes true again,
whatever outcome any later invocation has. -/
theorem C1_first_call_amended (s : GgmlState) (prompt : List Char)
    (code : Int) (out err : List Nat)
    (hflag : s.exception_on_failure = true) (hc : code ≠ 0) :
    (callModel s prompt (.completed code out err)).state.first_call = s.first_call
      ∧ ∀ oc : RunOutcome, s.first_call = false →
          (callModel s prompt oc).state.first_call = false := by
  constructor
  · simp only [callModel, hflag]
    rw [if_pos ⟨trivial, hc⟩]
    cases hdec : utf8DecodeList err with
    | none => rfl
    | some errText =>
      by_cases hfc : s.first_call = true
      · simp [hfc]
      · simp [hfc]
  · intro oc h
    cases oc with
    | startFailure e => simpa [callModel] using h
    | completed code' out' err' =>
      simp only [callModel]
      by_cases hcond : s.exception_on_failure = true ∧ code' ≠ 0
      · rw [if_pos hcond]
        cases hdec : utf8DecodeList err' with
        | none => simpa using h
        | some errText => simp [h]
      · rw [if_neg hcond]
        cases hdec : utf8DecodeList out' with
        | none => simpa using h
        | some text => simp

/-- Witness for `C1_first_call_amended` at concrete inputs: a fresh
instance keeps `first_call = true` across a failing call, and an
instance with `first_call = false` keeps it false across a further
failing call and a successful one. -/
theorem C1_first_call_amended_witness :
    (callModel sampleState "hi".data (.completed 1 [] [])).state.first_call
        = sampleState.first_call
      ∧ (callModel sampleStateLater "hi".data (.completed 1 [] [])).state.first_call = false
      ∧ (callModel sampleStateLater "hi".data (.completed 0 [0x41] [])).state.first_call
          = false := by
  refine ⟨(C1_first_call_amended sampleState "hi".data 1 [] [] (by decide) (by decide)).1,
    (C1_first_call_amended sampleStateLater "hi".data 1 [] [] (by decide) (by decide)).2
      (.completed 1 [] []) (by decide),
    (C1_first_call_amended sampleStateLater "hi".data 1 [] [] (by decide) (by decide)).2
      (.completed 0 [0x41] []) (by decide)⟩

/-- C2: when the external process exits non-zero (under the default
`exception_on_failure = True`, with decodable stderr): if `first_call`
is true the `CalledProcessError` propagates to the caller, with the
decoded stderr logged; if `first_call` is false the decoded stderr is
logged and `None` is returned instead of propagating.  In both branches
the state is unchanged. -/
theorem C2_nonzero_exit_policy (s : GgmlState) (prompt : List Char)
    (code : Int) (out err : List Nat) (errText : List Char)
    (hflag : s.exception_on_failure = true) (hc : code ≠ 0)
    (hdec : utf8DecodeList err = some errText) :
    (s.first_call = true →
        callModel s prompt (.completed code out err)
          = { result := .calledProcessError code err, state := s, logs := [errText] })
      ∧ (s.first_call = false →
        callModel s prompt (.completed code out err)
          = { result := .output none, state := s, logs := [errText] }) := by
  constructor <;> intro h <;>
    · simp only [callModel, hflag]
      rw [if_pos ⟨trivial, hc⟩]
      simp [hdec, h]

/-- Witness for `C2_nonzero_exit_policy`: exit code 1 with stderr
`"bad"`; a fresh instance propagates the error, an instance past its
first call logs and returns `None`. -/
theorem C2_nonzero_exit_policy_witness :
    callModel sampleState "hi".data (.completed 1 [] [0x62, 0x61, 0x64])
        = { result := .calledProcessError 1 [0x62, 0x61, 0x64], state := sampleState,
            logs := ["bad".data] }
      ∧ callModel sampleStateLater "hi".data (.completed 1 [] [0x62, 0x61, 0x64])
        = { result := .output none, state := sampleStateLater, logs := ["bad".data] } := by
  refine ⟨(C2_nonzero_exit_policy sampleState "hi".data 1 [] [0x62, 0x61, 0x64] "bad".data
      (by decide) (by decide) (by decide)).1 (by decide),
    (C2_nonzero_exit_policy sampleStateLater "hi".data 1 [] [0x62, 0x61, 0x64] "bad".data
      (by decide) (by decide) (by decide)).2 (by decide)⟩

/-- C3: on a zero exit code (with decodable stdout), the returned text is
`stripEcho prompt text`: the decoded stdout left-stripped of whitespace,
with exactly one leading occurrence of the left-stripped prompt removed
when the trimmed output starts with the trimmed prompt, and the trimmed
output unchanged otherwise. -/
theorem C3_success_output (s : GgmlState) (prompt : List Char) (out err : List Nat)
    (text : List Char) (hdec : utf8DecodeList out = some text) :
    (callModel s prompt (.completed 0 out err)).result
        = .output (some (stripEcho prompt text))
      ∧ (∀ suffix, lstrip text = lstrip prompt ++ suffix → stripEcho prompt text = suffix)
      ∧ (¬ (lstrip prompt).isPrefixOf (lstrip text) → stripEcho prompt text = lstrip text) := by
  refine ⟨?_, ?_, ?_⟩
  · simp [callModel, hdec]
  · intro suffix hsplit
    simp only [stripEcho, hsplit]
    rw [if_pos (by simp [List.isPrefixOf_iff_prefix])]
    exact List.drop_left _ _
  · intro hnp
    simp [stripEcho, hnp]

/-- Witness for `C3_success_output`: prompt `"Hello"`, stdout the UTF-8
bytes of `"Hello world"` — the call returns `" world"`. -/
theorem C3_success_output_witness :
    (callModel sampleState "Hello".data
        (.completed 0 [0x48, 0x65, 0x6C, 0x6C, 0x6F, 0x20, 0x77, 0x6F, 0x72, 0x6C, 0x64] [])).result
      = .output (some " world".data) := by
  have h := C3_success_output sampleState "Hello".data
    [0x48, 0x65, 0x6C, 0x6C, 0x6F, 0x20, 0x77, 0x6F, 0x72, 0x6C, 0x64] []
    "Hello world".data (by decide)
  rw [h.1]
  decide

/-- C5: for every model file that exists as a regular file whose first 4
bytes are not exactly `0x47 0x47 0x55 0x46`, construction fails with the
format error, regardless of file length — a file shorter than 4 bytes
fails the same way rather than crashing (`read(4)` just returns fewer
bytes, which cannot equal the 4-byte signature) — and the validating read
touches only the first 4 bytes of the file: `read_magic` gives the same
answer on the file and on its 4-byte prefix. -/
theorem C5_format_check (fs : FileSystem) (exePath : List Char) (exeBytes : List Nat)
    (runSeed : Option Int) (name : List Char) (maxTokens : Option PyVal)
    (contents : List Nat)
    (hexe : fs.regularFile exePath = some exeBytes)
    (hmodel : fs.regularFile name = some contents)
    (hmagic : read_magic contents ≠ GGUF_MAGIC) :
    ggmlInit fs (some exePath) runSeed name maxTokens
        = .error (.formatError (name ++ " is not in GGUF format".data))
      ∧ read_magic contents = read_magic (contents.take 4) := by
  constructor
  · simp only [ggmlInit, hexe, hmodel]
    rw [if_pos hmagic]
  · simp [read_magic, GGUF_MAGIC, List.take_take]

/-- Witness for `C5_format_check` at a 2-byte model file `short.bin`
(contents `0x47 0x47`): construction fails with the format error. -/
theorem C5_format_check_witness :
    ggmlInit sampleFS (some "/usr/bin/main".data) none "short.bin".data none
      = .error (.formatError ("short.bin".data ++ " is not in GGUF format".data)) :=
  (C5_format_check sampleFS "/usr/bin/main".data [0x7F, 0x45, 0x4C, 0x46] none
    "short.bin".data none [0x47, 0x47] (by decide) (by decide) (by decide)).1

/-- C6: construction fails with the configuration error when the
executable path is unset, and with the not-found error when the
executable path or the model path is not a regular file; the checks apply
in that order — the unset-executable conclusion holds for every
filesystem and model path (so before any file or format check), the
executable-file conclusion for every model path, and the model-file
conclusion before the format check (it holds with no hypothesis on the
model's contents).  Construction is total and returns `Except`: an
invalid configuration yields an error value, never an instance state, so
no invocation can be attempted on it. -/
theorem C6_construction_errors (fs : FileSystem) (runSeed : Option Int)
    (name : List Char) (maxTokens : Option PyVal) :
    ggmlInit fs none runSeed name maxTokens
        = .error (.configurationError
            "Executable not provided by environment GGML_MAIN_PATH".data)
      ∧ (∀ exePath, fs.regularFile exePath = none →
          ggmlInit fs (some exePath) runSeed name maxTokens
            = .error (.notFoundError ("Path provided is not a file: ".data ++ exePath)))
      ∧ (∀ exePath exeBytes, fs.regularFile exePath = some exeBytes →
          fs.regularFile name = none →
          ggmlInit fs (some exePath) runSeed name maxTokens
            = .error (.notFoundError
                ("File not found, unable to load model: ".data ++ name))) := by
  refine ⟨rfl, fun exePath he => ?_, fun exePath exeBytes he hn => ?_⟩
  · simp [ggmlInit, he]
  · simp [ggmlInit, he, hn]

/-- Witness for `C6_construction_errors`: with the executable unset the
configuration error is raised even though the model file is fine; a
missing executable `nope` and a missing model `nope` each raise the
not-found error with a message naming the path. -/
theorem C6_construction_errors_witness :
    ggmlInit sampleFS none none "model.gguf".data none
        = .error (.configurationError
            "Executable not provided by environment GGML_MAIN_PATH".data)
      ∧ ggmlInit sampleFS (some "nope".data) none "model.gguf".data none
        = .error (.notFoundError ("Path provided is not a file: ".data ++ "nope".data))
      ∧ ggmlInit sampleFS (some "/usr/bin/main".data) none "nope".data none
        = .error (.notFoundError
            ("File not found, unable to load model: ".data ++ "nope".data)) := by
  refine ⟨(C6_construction_errors sampleFS none "model.gguf".data none).1,
    (C6_construction_errors sampleFS none "model.gguf".data none).2.1
      "nope".data (by decide),
    (C6_construction_errors sampleFS none "nope".data none).2.2
      "/usr/bin/main".data [0x7F, 0x45, 0x4C, 0x46] (by decide) (by decide)⟩

/-- C7: every successful construction resolves the seed from the
run-level configuration: it equals the configured seed when one is set
and 0 when it is absent; it is never left unset (`None`) or as a
negative sentinel. -/
theorem C7_seed_resolution (fs : FileSystem) (env : Option (List Char))
    (runSeed : Option Int) (name : List Char) (maxTokens : Option PyVal)
    (st : GgmlState)
    (h : ggmlInit fs env runSeed name maxTokens = .ok st) :
    st.seed = some (.vint (runSeed.getD 0))
      ∧ (∀ z, runSeed = some z → st.seed = some (.vint z))
      ∧ (runSeed = none → st.seed = some (.vint 0)) := by
  have hseed : st.seed = some (.vint (runSeed.getD 0)) := by
    rcases env with _ | exePath
    · simp [ggmlInit] at h
    · rcases he : fs.regularFile exePath with _ | exeBytes
      · simp [ggmlInit, he] at h
      · rcases hm : fs.regularFile name with _ | contents
        · simp [ggmlInit, he, hm] at h
        · by_cases hmg : read_magic contents ≠ GGUF_MAGIC
          · simp [ggmlInit, he, hm, hmg] at h
          · simp [ggmlInit, he, hm, hmg] at h
            rw [← h]
  exact ⟨hseed, fun z hz => by rw [hseed, hz]; rfl, fun hz => by rw [hseed, hz]; rfl⟩

/-- Witness for `C7_seed_resolution`: with run seed 7 the constructed
state carries seed 7; with the run seed absent it carries seed 0. -/
theorem C7_seed_resolution_witness :
    (sampleOkState 7).seed = some (.vint 7)
      ∧ (sampleOkState 0).seed = some (.vint 0) :=
  ⟨(C7_seed_resolution sampleFS (some "/usr/bin/main".data) (some 7) "model.gguf".data
      none (sampleOkState 7) (by rfl)).2.1 7 rfl,
   (C7_seed_resolution sampleFS (some "/usr/bin/main".data) none "model.gguf".data
      none (sampleOkState 0) (by rfl)).2.2 rfl⟩

/-- C8: a failure that is not a "process exited non-zero" condition —
the process could not be started, or (on a clean zero exit) stdout was
not valid UTF-8, both landing in the generic `except Exception` handler —
is logged and turned into a returned `None` without propagating, and the
whole instance state comes back equal to the input state, so `first_call`
is not mutated.  Moreover the result and logs on the could-not-start path
are literally independent of the `first_call` field, so the flag is not
consulted either. -/
theorem C8_other_failures_frame (s : GgmlState) (prompt : List Char) :
    (∀ e, callModel s prompt (.startFailure e)
        = { result := .output none, state := s, logs := [e] })
      ∧ (∀ out err, utf8DecodeList out = none →
          callModel s prompt (.completed 0 out err)
            = { result := .output none, state := s, logs := [unicodeErrorLog] })
      ∧ (∀ e b,
          (callModel { s with first_call := b } prompt (.startFailure e)).result
              = (callModel s prompt (.startFailure e)).result
            ∧ (callModel { s with first_call := b } prompt (.startFailure e)).logs
              = (callModel s prompt (.startFailure e)).logs) := by
  refine ⟨fun e => rfl, fun out err hdec => ?_, fun e b => ⟨rfl, rfl⟩⟩
  simp [callModel, hdec]

/-- Witness for `C8_other_failures_frame`: a start failure and an
undecodable-stdout success (bytes `0xFF`) each return `None`, log one
message, and leave the fresh instance state — `first_call = true`
included — unchanged. -/
theorem C8_other_failures_frame_witness :
    callModel sampleState "hi".data (.startFailure "FileNotFoundError".data)
        = { result := .output none, state := sampleState,
            logs := ["FileNotFoundError".data] }
      ∧ callModel sampleState "hi".data (.completed 0 [0xFF] [])
        = { result := .output none, state := sampleState, logs := [unicodeErrorLog] } :=
  ⟨(C8_other_failures_frame sampleState "hi".data).1 "FileNotFoundError".data,
   (C8_other_failures_frame sampleState "hi".data).2.1 [0xFF] [] (by decide)⟩

/-- C9: with `exception_on_failure` set to false, a non-zero exit code is
not treated as a failure: `subprocess.run` does not raise, the (possibly
empty) stdout is decoded and echo-stripped and returned as on success,
`first_call` is set to false, and nothing is logged — the first-call
escalation policy is bypassed entirely. -/
theorem C9_no_raise_flag_off (s : GgmlState) (prompt : List Char) (code : Int)
    (out err : List Nat) (text : List Char)
    (hflag : s.exception_on_failure = false) (_hc : code ≠ 0)
    (hdec : utf8DecodeList out = some text) :
    callModel s prompt (.completed code out err)
      = { result := .output (some (stripEcho prompt text)),
          state := { s with first_call := false }, logs := [] } := by
  simp [callModel, hflag, hdec]

/-- Witness for `C9_no_raise_flag_off`: exit code 1 with empty stdout and
non-empty stderr on an instance with `exception_on_failure = False` —
the call returns the empty text, flips `first_call`, and logs
nothing. -/
theorem C9_no_raise_flag_off_witness :
    callModel sampleStateNoRaise "hi".data (.completed 1 [] [0x65, 0x72, 0x72])
      = { result := .output (some []),
          state := { sampleStateNoRaise with first_call := false }, logs := [] } := by
  have h := C9_no_raise_flag_off sampleStateNoRaise "hi".data 1 [] [0x65, 0x72, 0x72] []
    (by decide) (by decide) (by decide)
  rw [h]
  decide

/-- C10: a zero exit whose captured stdout is not valid UTF-8 is handled
by the generic `except Exception` handler: the call returns `None`, logs
the decode error, and leaves `first_call` unchanged — on a fresh instance
the flag stays true, so a later call is still treated as the first. -/
theorem C10_zero_exit_undecodable (s : GgmlState) (prompt : List Char)
    (out err : List Nat) (hdec : utf8DecodeList out = none) :
    callModel s prompt (.completed 0 out err)
        = { result := .output none, state := s, logs := [unicodeErrorLog] }
      ∧ (s.first_call = true →
          (callModel s prompt (.completed 0 out err)).state.first_call = true) := by
  have h : callModel s prompt (.completed 0 out err)
      = { result := .output none, state := s, logs := [unicodeErrorLog] } := by
    simp [callModel, hdec]
  exact ⟨h, fun hf => by rw [h]; exact hf⟩

/-- Witness for `C10_zero_exit_undecodable`: stdout `0xC0` (an invalid
lead byte) on a zero exit of a fresh instance returns `None`, logs, and
keeps `first_call = true`. -/
theorem C10_zero_exit_undecodable_witness :
    callModel sampleState "hi".data (.completed 0 [0xC0] [])
        = { result := .output none, state := sampleState, logs := [unicodeErrorLog] }
      ∧ (callModel sampleState "hi".data (.completed 0 [0xC0] [])).state.first_call
          = true :=
  ⟨(C10_zero_exit_undecodable sampleState "hi".data [0xC0] [] (by decide)).1,
   (C10_zero_exit_undecodable sampleState "hi".data [0xC0] [] (by decide)).2 (by decide)⟩
